import Mathlib

/-!
Verification of the battery health prediction pipeline (`src/app.py`).

The core of the program is a scoring-and-classification pipeline with an
append-only in-memory history:

* the feature builder computes `power = round(v * i, 2)` and assembles the
  model input row `[v, i, t, power]` (app.py lines 33 and 47);
* the classifier `get_detailed_prediction` maps a health score to a triple of
  band labels via fixed thresholds (app.py lines 36-44);
* on a prediction request the raw model output is rounded to 2 decimals,
  classified, and the resulting event dict is appended to
  `st.session_state.history` (app.py lines 46-58);
* the dashboard reads `history[-1]` only after checking the history is
  non-empty (app.py lines 61-62), snapshots the history into a dataframe
  (line 95), and `export_pdf` renders a title line, a generation-timestamp
  line, a header row and one table row per event (lines 107-133).

Numbers are modelled as exact rationals; Python's `round(x, 2)` is modelled
as rounding `x * 100` half-to-even (Python 3 `round` semantics) and dividing
by 100.  The fallible scaler/model stage is modelled as an injected function
returning `Option`: `none` models the raised exception that aborts the
script run before the append.
-/

namespace BatteryPredictor

/-- Round a rational to the nearest integer, ties to even (Python 3 `round`
with `ndigits = 0`). -/
def roundHalfEven (q : ℚ) : ℤ :=
  if q - ⌊q⌋ < 1 / 2 then ⌊q⌋
  else if (1 : ℚ) / 2 < q - ⌊q⌋ then ⌊q⌋ + 1
  else if ⌊q⌋ % 2 = 0 then ⌊q⌋ else ⌊q⌋ + 1

/-- Python's `round(q, 2)`. -/
def round2 (q : ℚ) : ℚ := (roundHalfEven (q * 100) : ℚ) / 100

/-- app.py line 33: `power = round(v * i, 2)`. -/
def power (v i : ℚ) : ℚ := round2 (v * i)

/-- app.py line 47: `input_array = np.array([[v, i, t, power]])` (the single
row of the model input). -/
def input_array (v i t : ℚ) : List ℚ := [v, i, t, power v i]

/-- app.py lines 36-44: threshold classifier mapping a score to
(remaining life, recommended load, suitability). -/
def get_detailed_prediction (score : ℚ) : String × String × String :=
  if score ≥ 80 then
    ("2 - 3 Years", "High (Up to 500W)", "Excellent (Solar/UPS/EV)")
  else if score ≥ 50 then
    ("1 - 2 Years", "Medium (Up to 150W)", "Good (LED/Fans/Small Electronics)")
  else if score ≥ 30 then
    ("6 Months - 1 Year", "Low (Below 50W)", "Fair (Emergency backup only)")
  else
    ("0 Months", "No Load (Recycle)", "Critical (Not safe for use)")

/-- One entry of `st.session_state.history` (the dict appended at
app.py lines 54-58). -/
structure PredictionEvent where
  Time : String
  Voltage : ℚ
  Current : ℚ
  Temp : ℚ
  Power : ℚ
  Score : ℚ
  Rem_Life : String
  Rec_Load : String
  Suitability : String
deriving DecidableEq

/-- The event dict built at app.py lines 50-58 from the raw model output
`raw`: `score = round(float(prediction), 2)`, bands from
`get_detailed_prediction(score)`. -/
def mkEvent (now : String) (v i t raw : ℚ) : PredictionEvent :=
  let score := round2 raw
  let bands := get_detailed_prediction score
  { Time := now, Voltage := v, Current := i, Temp := t, Power := power v i,
    Score := score, Rem_Life := bands.1, Rec_Load := bands.2.1,
    Suitability := bands.2.2 }

/-- app.py lines 46-58: the body of the predict button.  `predictor` models
the composition `model.predict(scaler.transform(...))[0]`; `none` models an
exception raised by the external artifacts, which aborts the script run
before the append, leaving the history untouched. -/
def predictRequest (predictor : List ℚ → Option ℚ) (now : String)
    (v i t : ℚ) (hist : List PredictionEvent) : List PredictionEvent :=
  match predictor (input_array v i t) with
  | none => hist
  | some raw => hist ++ [mkEvent now v i t raw]

/-- Ledger states reachable from the empty session history by prediction
requests (app.py lines 25-26 initialise the history to `[]`; lines 46-58 are
the only mutation). -/
inductive Reachable : List PredictionEvent → Prop
  | init : Reachable []
  | step (predictor : List ℚ → Option ℚ) (now : String) (v i t : ℚ)
      (hist : List PredictionEvent) :
      Reachable hist → Reachable (predictRequest predictor now v i t hist)

/-- app.py lines 61-62: the dashboard reads `history[-1]` only inside
`if st.session_state.history:`; the guarded read is modelled as an
`Option`-returning lookup of the last element. -/
def last (hist : List PredictionEvent) : Option PredictionEvent :=
  hist.getLast?

/-- app.py line 65 and 68-70: the "current status" header and metrics,
rendered only when `last` yields an event. -/
def currentStatus (hist : List PredictionEvent) :
    Option (String × String × String × ℚ) :=
  match last hist with
  | none => none
  | some l => some (l.Suitability, l.Rem_Life, l.Rec_Load, l.Score)

/-- app.py line 95: `df = pd.DataFrame(st.session_state.history)` — a
read-only copy of the history.  Modelled state-passing: the first component
is the returned sequence, the second the ledger state after the call. -/
def snapshot (hist : List PredictionEvent) :
    List PredictionEvent × List PredictionEvent :=
  (hist.map id, hist)

/-- app.py line 127: the Score cell text, the formatted score followed by a
percent sign; the numeric rendering is abstracted by `toString`, which the
claims never inspect. -/
def scoreCell (q : ℚ) : String := toString q ++ "%"

/-- app.py lines 107-133: `export_pdf`.  The byte stream is modelled as the
sequence of rendered rows, each row the list of `pdf.cell` calls it is made
of (cell width, cell text): the centered title (line 111), the
generation-timestamp line containing `datetime.now()` (line 113), the header
row (lines 117-121), then one row per dataframe entry (lines 125-131). -/
def export_pdf (dataframe : List PredictionEvent) (now : String) :
    List (List (ℕ × String)) :=
  [[(190, "Battery Health Prediction Report")],
   [(190, "Report Generated: " ++ now)],
   [(20, "Time"), (20, "Health %"), (40, "Est. Life"), (40, "Rec. Load"),
    (70, "Suitability")]] ++
  dataframe.map (fun row =>
    [(20, row.Time), (20, scoreCell row.Score), (40, row.Rem_Life),
     (40, row.Rec_Load), (70, row.Suitability)])

/-- The title row of the exported report. -/
def titleRow : List (ℕ × String) := [(190, "Battery Health Prediction Report")]

/-- The generation-timestamp row of the exported report. -/
def generatedRow (now : String) : List (ℕ × String) :=
  [(190, "Report Generated: " ++ now)]

/-- The header row of the exported report, columns in the fixed order
Time, Health %, Est. Life, Rec. Load, Suitability. -/
def headerRow : List (ℕ × String) :=
  [(20, "Time"), (20, "Health %"), (40, "Est. Life"), (40, "Rec. Load"),
   (70, "Suitability")]

/-- One data row of the exported report for a history entry, columns in the
same fixed order as the header. -/
def dataRow (e : PredictionEvent) : List (ℕ × String) :=
  [(20, e.Time), (20, scoreCell e.Score), (40, e.Rem_Life), (40, e.Rec_Load),
   (70, e.Suitability)]

/-- Band returned for scores `≥ 80` (app.py line 38). -/
def bandExcellent : String × String × String :=
  ("2 - 3 Years", "High (Up to 500W)", "Excellent (Solar/UPS/EV)")

/-- Band returned for scores in `[50, 80)` (app.py line 40). -/
def bandGood : String × String × String :=
  ("1 - 2 Years", "Medium (Up to 150W)", "Good (LED/Fans/Small Electronics)")

/-- Band returned for scores in `[30, 50)` (app.py line 42). -/
def bandFair : String × String × String :=
  ("6 Months - 1 Year", "Low (Below 50W)", "Fair (Emergency backup only)")

/-- Band returned for scores `< 30` (app.py line 44). -/
def bandCritical : String × String × String :=
  ("0 Months", "No Load (Recycle)", "Critical (Not safe for use)")

/-- The threshold table, rows ordered high-to-low, with the label strings the
code actually returns. -/
def thresholdTable : List (ℚ × (String × String × String)) :=
  [(80, bandExcellent), (50, bandGood), (30, bandFair)]

/-- First-matching-row semantics over the threshold table, evaluated
high-to-low, falling through to the catch-all band; written after the
spec's description of the classifier, to be compared with
`get_detailed_prediction`. -/
def classifyByTable (s : ℚ) : String × String × String :=
  match thresholdTable.find? (fun row => decide (row.1 ≤ s)) with
  | some row => row.2
  | none => bandCritical

/-- C1: the feature builder emits the feature vector in the fixed order
(voltage, current, temperature, power), the power component equals
round(voltage * current, 2), and for the reading (52.0, 2.0, 30.0) the power
component is 104.0. -/
theorem C1_feature_vector_order_and_power :
    (∀ v i t : ℚ, input_array v i t = [v, i, t, round2 (v * i)]) ∧
    input_array 52 2 30 = [52, 2, 30, 104] := by
  refine ⟨fun v i t => rfl, ?_⟩
  norm_num [input_array, power, round2, roundHalfEven]

/-- C2 counterexample: at score 80 the classifier does not return the label
triple quoted by the claim; the code's label strings differ from the spec
table's abbreviated ones. -/
theorem C2_counterexample :
    get_detailed_prediction 80 ≠ ("2–3 Years", "High (≤500W)", "Excellent") := by
  norm_num [get_detailed_prediction]
  decide

/-- C2 (amended): the classifier agrees everywhere with first-matching-row
evaluation of the high-to-low threshold table whose rows carry the code's
actual label strings. -/
theorem C2_first_match_table :
    ∀ s : ℚ, get_detailed_prediction s = classifyByTable s := by
  intro s
  by_cases h80 : (80 : ℚ) ≤ s
  · simp [get_detailed_prediction, classifyByTable, thresholdTable,
      List.find?, bandExcellent, bandGood, bandFair, bandCritical, h80]
  · by_cases h50 : (50 : ℚ) ≤ s
    · simp [get_detailed_prediction, classifyByTable, thresholdTable,
        List.find?, bandExcellent, bandGood, bandFair, bandCritical, h80, h50]
    · by_cases h30 : (30 : ℚ) ≤ s
      · simp [get_detailed_prediction, classifyByTable, thresholdTable,
          List.find?, bandExcellent, bandGood, bandFair, bandCritical,
          h80, h50, h30]
      · simp [get_detailed_prediction, classifyByTable, thresholdTable,
          List.find?, bandExcellent, bandGood, bandFair, bandCritical,
          h80, h50, h30]

/-- C3: the classifier is a total deterministic function on all of ℚ with no
clamping: each range gets exactly one band, the boundaries 80, 50, 30 fall
in the higher band, 29.99 is Critical, negative scores are Critical, and
scores above 100 classify by the same rules. -/
theorem C3_classifier_total_no_clamping :
    (∀ s : ℚ, 80 ≤ s → get_detailed_prediction s = bandExcellent) ∧
    (∀ s : ℚ, 50 ≤ s → s < 80 → get_detailed_prediction s = bandGood) ∧
    (∀ s : ℚ, 30 ≤ s → s < 50 → get_detailed_prediction s = bandFair) ∧
    (∀ s : ℚ, s < 30 → get_detailed_prediction s = bandCritical) ∧
    get_detailed_prediction 80 = bandExcellent ∧
    get_detailed_prediction 50 = bandGood ∧
    get_detailed_prediction 30 = bandFair ∧
    get_detailed_prediction (2999 / 100) = bandCritical ∧
    (∀ s : ℚ, s < 0 → get_detailed_prediction s = bandCritical) ∧
    (∀ s : ℚ, 100 < s → get_detailed_prediction s = bandExcellent) := by
  refine ⟨fun s h => ?_, fun s h1 h2 => ?_, fun s h1 h2 => ?_, fun s h => ?_,
    ?_, ?_, ?_, ?_, fun s h => ?_, fun s h => ?_⟩
  · simp [get_detailed_prediction, bandExcellent, h]
  · have hn80 : ¬ (80 : ℚ) ≤ s := by linarith
    simp [get_detailed_prediction, bandGood, hn80, h1]
  · have hn80 : ¬ (80 : ℚ) ≤ s := by linarith
    have hn50 : ¬ (50 : ℚ) ≤ s := by linarith
    simp [get_detailed_prediction, bandFair, hn80, hn50, h1]
  · have hn80 : ¬ (80 : ℚ) ≤ s := by linarith
    have hn50 : ¬ (50 : ℚ) ≤ s := by linarith
    have hn30 : ¬ (30 : ℚ) ≤ s := by linarith
    simp [get_detailed_prediction, bandCritical, hn80, hn50, hn30]
  · norm_num [get_detailed_prediction, bandExcellent]
  · norm_num [get_detailed_prediction, bandGood]
  · norm_num [get_detailed_prediction, bandFair]
  · norm_num [get_detailed_prediction, bandCritical]
  · have hn80 : ¬ (80 : ℚ) ≤ s := by linarith
    have hn50 : ¬ (50 : ℚ) ≤ s := by linarith
    have hn30 : ¬ (30 : ℚ) ≤ s := by linarith
    simp [get_detailed_prediction, bandCritical, hn80, hn50, hn30]
  · have h80 : (80 : ℚ) ≤ s := by linarith
    simp [get_detailed_prediction, bandExcellent, h80]

/-- C3 witness at concrete scores 85 and -5. -/
theorem C3_witness :
    ((80 : ℚ) ≤ 85 ∧ get_detailed_prediction 85 = bandExcellent) ∧
    ((-5 : ℚ) < 0 ∧ get_detailed_prediction (-5) = bandCritical) :=
  ⟨⟨by norm_num, C3_classifier_total_no_clamping.1 85 (by norm_num)⟩,
   ⟨by norm_num,
    C3_classifier_total_no_clamping.2.2.2.2.2.2.2.2.1 (-5) (by norm_num)⟩⟩

/-- C4: the ledger changes only by appends: a successful prediction request
extends the history by exactly the new event (length +1, new last element,
all previous entries unchanged in place), and a failed scorer leaves the
history exactly as it was. -/
theorem C4_ledger_append_only (predictor : List ℚ → Option ℚ) (now : String)
    (v i t : ℚ) (hist : List PredictionEvent) :
    (∀ raw, predictor (input_array v i t) = some raw →
      predictRequest predictor now v i t hist =
        hist ++ [mkEvent now v i t raw] ∧
      (predictRequest predictor now v i t hist).length = hist.length + 1 ∧
      (predictRequest predictor now v i t hist).getLast? =
        some (mkEvent now v i t raw) ∧
      (predictRequest predictor now v i t hist).take hist.length = hist) ∧
    (predictor (input_array v i t) = none →
      predictRequest predictor now v i t hist = hist) := by
  constructor
  · intro raw hp
    simp [predictRequest, hp, List.getLast?_concat, List.take_left]
  · intro hp
    simp [predictRequest, hp]

/-- C4 witness: a concrete successful request on the empty ledger and a
concrete scorer failure. -/
theorem C4_witness :
    ((fun _ : List ℚ => some ((853 : ℚ) / 10)) (input_array 52 2 30) =
        some (853 / 10) ∧
      predictRequest (fun _ => some ((853 : ℚ) / 10)) "10:00:00" 52 2 30 [] =
        [] ++ [mkEvent "10:00:00" 52 2 30 (853 / 10)]) ∧
    ((fun _ : List ℚ => (none : Option ℚ)) (input_array 52 2 30) = none ∧
      predictRequest (fun _ => none) "10:00:00" 52 2 30
        [mkEvent "10:00:00" 52 2 30 (853 / 10)] =
        [mkEvent "10:00:00" 52 2 30 (853 / 10)]) :=
  ⟨⟨rfl,
    ((C4_ledger_append_only (fun _ => some ((853 : ℚ) / 10)) "10:00:00"
        52 2 30 []).1 (853 / 10) rfl).1⟩,
   ⟨rfl,
    (C4_ledger_append_only (fun _ => none) "10:00:00" 52 2 30
        [mkEvent "10:00:00" 52 2 30 (853 / 10)]).2 rfl⟩⟩

/-- C5: on every successful prediction the appended event stores the raw
model output rounded to 2 decimal places as its Score, and its bands are the
classification of exactly that rounded score. -/
theorem C5_score_rounded_then_classified (predictor : List ℚ → Option ℚ)
    (now : String) (v i t raw : ℚ) (hist : List PredictionEvent)
    (h : predictor (input_array v i t) = some raw) :
    ∃ e, predictRequest predictor now v i t hist = hist ++ [e] ∧
      e.Score = round2 raw ∧
      (e.Rem_Life, e.Rec_Load, e.Suitability) =
        get_detailed_prediction e.Score := by
  refine ⟨mkEvent now v i t raw, ?_, rfl, rfl⟩
  simp [predictRequest, h]

/-- C5 witness at the concrete reading (52, 2, 30) with raw output 85.3. -/
theorem C5_witness :
    ((fun _ : List ℚ => some ((853 : ℚ) / 10)) (input_array 52 2 30) =
      some (853 / 10)) ∧
    ∃ e, predictRequest (fun _ => some ((853 : ℚ) / 10)) "10:00:00"
        52 2 30 [] = [] ++ [e] ∧
      e.Score = round2 (853 / 10) ∧
      (e.Rem_Life, e.Rec_Load, e.Suitability) =
        get_detailed_prediction e.Score :=
  ⟨rfl, C5_score_rounded_then_classified (fun _ => some ((853 : ℚ) / 10))
    "10:00:00" 52 2 30 (853 / 10) [] rfl⟩

/-- C6 counterexample: two export invocations on the same (empty) snapshot
at different generation times produce different outputs, because the report
embeds the generation timestamp of line 113. -/
theorem C6_counterexample :
    export_pdf [] "2025-01-01 10:00" ≠ export_pdf [] "2025-01-01 10:01" := by
  simp only [export_pdf]
  decide

/-- C6 (amended): export is deterministic given the snapshot and the
generation timestamp: equal snapshots and equal generation times yield
identical outputs, and everything except the generation-timestamp row
(row index 1) is already determined by the snapshot alone. -/
theorem C6_deterministic_given_snapshot_and_time
    (s₁ s₂ : List PredictionEvent) (now₁ now₂ : String) (hs : s₁ = s₂) :
    (now₁ = now₂ → export_pdf s₁ now₁ = export_pdf s₂ now₂) ∧
    (export_pdf s₁ now₁).eraseIdx 1 = (export_pdf s₂ now₂).eraseIdx 1 := by
  subst hs
  constructor
  · intro hn; rw [hn]
  · simp [export_pdf, List.eraseIdx]

/-- C6 witness on a concrete one-event snapshot and two distinct times. -/
theorem C6_witness :
    ([mkEvent "10:00:00" 52 2 30 (853 / 10)] =
      [mkEvent "10:00:00" 52 2 30 (853 / 10)]) ∧
    (export_pdf [mkEvent "10:00:00" 52 2 30 (853 / 10)] "2025-01-01 10:00"
        ).eraseIdx 1 =
      (export_pdf [mkEvent "10:00:00" 52 2 30 (853 / 10)] "2025-01-01 10:01"
        ).eraseIdx 1 :=
  ⟨rfl, (C6_deterministic_given_snapshot_and_time
    [mkEvent "10:00:00" 52 2 30 (853 / 10)]
    [mkEvent "10:00:00" 52 2 30 (853 / 10)]
    "2025-01-01 10:00" "2025-01-01 10:01" rfl).2⟩

/-- C7: for every snapshot of n events the report consists of the two
preamble rows plus exactly one header row followed by exactly n data rows,
columns in the fixed order Time, Health %, Est. Life, Rec. Load,
Suitability; in particular a 2-event snapshot yields 3 + 2 rows. -/
theorem C7_report_shape (s : List PredictionEvent) (now : String) :
    (export_pdf s now).length = 3 + s.length ∧
    (export_pdf s now).take 3 = [titleRow, generatedRow now, headerRow] ∧
    (export_pdf s now).drop 3 = s.map dataRow ∧
    headerRow.map Prod.snd =
      ["Time", "Health %", "Est. Life", "Rec. Load", "Suitability"] ∧
    (export_pdf [mkEvent now 52 2 30 85, mkEvent now 48 2 25 40] now).length =
      3 + 2 := by
  refine ⟨?_, ?_, ?_, rfl, ?_⟩
  · simp [export_pdf]; ring
  · simp [export_pdf, titleRow, generatedRow, headerRow]
  · simp [export_pdf, dataRow]
  · simp [export_pdf]

/-- C8: reading the last entry of an empty ledger yields the explicit
absent signal (never raises), the "current status" view renders nothing in
that case, and after any append the last entry is the appended event. -/
theorem C8_last_empty_is_none :
    last [] = none ∧ currentStatus [] = none ∧
    (∀ (hist : List PredictionEvent) (e : PredictionEvent),
      last (hist ++ [e]) = some e) ∧
    (∀ (hist : List PredictionEvent) (e : PredictionEvent),
      currentStatus (hist ++ [e]) =
        some (e.Suitability, e.Rem_Life, e.Rec_Load, e.Score)) := by
  refine ⟨rfl, rfl, fun hist e => ?_, fun hist e => ?_⟩
  · simp [last, List.getLast?_concat]
  · simp [currentStatus, last, List.getLast?_concat]

/-- C9: the snapshot is read-only (the ledger state after the call is the
state before it) and idempotent (two snapshots without an intervening
append return equal sequences). -/
theorem C9_snapshot_readonly_idempotent (hist : List PredictionEvent) :
    (snapshot hist).2 = hist ∧
    (snapshot ((snapshot hist).2)).1 = (snapshot hist).1 := by
  simp [snapshot]

/-- C10: in every reachable ledger state, every stored event's three band
fields agree with the classifier applied to that event's stored score. -/
theorem C10_bands_match_stored_score (hist : List PredictionEvent)
    (h : Reachable hist) :
    ∀ e ∈ hist, (e.Rem_Life, e.Rec_Load, e.Suitability) =
      get_detailed_prediction e.Score := by
  induction h with
  | init => simp
  | step predictor now v i t hist hr ih =>
    intro e he
    unfold predictRequest at he
    cases hp : predictor (input_array v i t) with
    | none =>
      rw [hp] at he
      exact ih e he
    | some raw =>
      rw [hp] at he
      rcases List.mem_append.mp he with h1 | h2
      · exact ih e h1
      · rw [List.mem_singleton] at h2
        subst h2
        rfl

/-- C10 witness on the concrete reachable one-event ledger produced by a
successful request on the empty ledger. -/
theorem C10_witness :
    Reachable [mkEvent "10:00:00" 52 2 30 (853 / 10)] ∧
    ((mkEvent "10:00:00" 52 2 30 ((853 : ℚ) / 10)).Rem_Life,
     (mkEvent "10:00:00" 52 2 30 ((853 : ℚ) / 10)).Rec_Load,
     (mkEvent "10:00:00" 52 2 30 ((853 : ℚ) / 10)).Suitability) =
      get_detailed_prediction
        (mkEvent "10:00:00" 52 2 30 ((853 : ℚ) / 10)).Score := by
  have hr : Reachable [mkEvent "10:00:00" 52 2 30 ((853 : ℚ) / 10)] := by
    have hstep := Reachable.step (fun _ => some ((853 : ℚ) / 10)) "10:00:00"
      52 2 30 [] Reachable.init
    simpa [predictRequest] using hstep
  exact ⟨hr, C10_bands_match_stored_score _ hr _ (List.mem_singleton.mpr rfl)⟩

end BatteryPredictor
